import Mathlib

/-!
Verification of the Launchpad suite reconciliation and build orchestration
engine (`LaunchpadSidebarProvider`): the version comparator, the
artifact-staleness check, per-project status classification, and the
build/install orchestration loops, shallowly embedded from the TypeScript
source.  Filesystem `stat` results, the installed-extension registry and
build/install collaborator outcomes are modelled as explicit snapshot data
(`Option Nat` modification times, boolean outcome assignments), and the
event-loop bodies become pure folds that additionally record the trace of
collaborator invocations.
-/

namespace Launchpad

/-- JavaScript `s.split(sep)` for a one-character separator, at
character level: splitting an empty string yields one empty component,
adjacent separators yield empty components.  (Defined by structural
recursion on the character list so that concrete instances evaluate
inside the kernel.) -/
def splitSep (sep : Char) : List Char → List (List Char)
  | [] => [[]]
  | c :: rest =>
    let r := splitSep sep rest
    if c = sep then [] :: r
    else
      match r with
      | h :: t => (c :: h) :: t
      | [] => [[c]]

/-- Split `v.split('.')` on a string. -/
def jsSplitDots (s : String) : List String :=
  (splitSep '.' s.toList).map String.mk

/-- Leading and trailing whitespace removal, at character level. -/
def trimChars (l : List Char) : List Char :=
  ((l.dropWhile Char.isWhitespace).reverse.dropWhile Char.isWhitespace).reverse

/-- Models JavaScript `Number(s)` on a dot-free version component, as a
partial value where `none` stands for `NaN`: surrounding whitespace is
trimmed, the empty string converts to `0`, an optionally signed nonempty
decimal numeral converts to its value, and anything else is `NaN`.
(Exotic numeric forms such as exponent or radix-prefixed notation do not
occur in version components and are folded into the `NaN` case.) -/
def jsNum (s : String) : Option Int :=
  match trimChars s.toList with
  | [] => some 0
  | '+' :: rest => (digitsVal rest).map Int.ofNat
  | '-' :: rest => (digitsVal rest).map (fun n => -(Int.ofNat n))
  | l => (digitsVal l).map Int.ofNat
where
  /-- Value of a nonempty all-digit character list, else `none`. -/
  digitsVal (l : List Char) : Option Nat :=
    match l with
    | [] => none
    | _ =>
      if l.all Char.isDigit then
        some (l.foldl (fun a c => a * 10 + (c.toNat - '0'.toNat)) 0)
      else none

/-- Models `v.split('.').map(Number)` from `compareVersions`. -/
def versionParts (v : String) : List (Option Int) :=
  (jsSplitDots v).map jsNum

/-- Models `(p[i] || 0)` from `compareVersions`: an out-of-range index
(`undefined`) and a `NaN` component both coerce to `0`. -/
def componentAt (parts : List (Option Int)) (i : Nat) : Int :=
  (parts.getD i none).getD 0

/-- The `for` loop of `compareVersions`, over the list of indices still to
visit: return `1`/`-1` at the first index whose components differ, else
fall through to `0`. -/
def cmpList (p1 p2 : List (Option Int)) : List Nat → Int
  | [] => 0
  | i :: rest =>
    if componentAt p1 i > componentAt p2 i then 1
    else if componentAt p1 i < componentAt p2 i then -1
    else cmpList p1 p2 rest

/-- Embedding of `LaunchpadSidebarProvider.compareVersions` (part_000 lines 346-355):
empty or `"unknown"` inputs compare equal; otherwise the first three
dot-separated components are compared numerically. -/
def compareVersions (v1 v2 : String) : Int :=
  if v1 = "" || v2 = "" || v1 = "unknown" || v2 = "unknown" then 0
  else cmpList (versionParts v1) (versionParts v2) [0, 1, 2]

/-- A version string is well-formed when it has exactly three dot-separated
components, each a nonempty digit string. -/
def WellFormed (v : String) : Prop :=
  (jsSplitDots v).length = 3 ∧
    ∀ s ∈ jsSplitDots v, s ≠ "" ∧ ∀ c ∈ s.toList, c.isDigit

instance : DecidablePred WellFormed := fun v => by
  unfold WellFormed; infer_instance

/-! ## Status classification (`scanForSuite`, part_000 lines 249-332)

Per project, the scan stats the derived artifact (`.vsix`) file and the
`src` subtree, looks the project up in the installed-extension registry,
and classifies it.  A project is modelled by the snapshot of these
queries: `Option Nat` is a `stat` result (`none` when `stat` throws,
i.e. the path is absent), and `installed` is the result of the
registry lookup together with the `stat` of the installed entity's
manifest file. -/

/-- The installed-extension registry entry found for a project: its
manifest version and the `stat` of its `package.json`
(`none` when that `stat` throws). -/
structure InstalledInfo where
  version : String
  manifestMtime : Option Nat
deriving Repr, DecidableEq

/-- Snapshot of one scanned project: its descriptor version, the `stat`
results of its derived artifact and of its `src` subtree, and the
installed-registry lookup. -/
structure ScanProject where
  version : String
  vsixMtime : Option Nat
  srcMtime : Option Nat
  installed : Option InstalledInfo
deriving Repr, DecidableEq

/-- The staleness computation of part_000 lines 266-285: `isStale` starts
`false`; if the artifact `stat` throws it becomes `true`; if the artifact
exists and the `src` `stat` succeeds with a strictly newer mtime it
becomes `true`; a failing `src` `stat` leaves it `false`. -/
def isStale (vsixMtime srcMtime : Option Nat) : Bool :=
  match vsixMtime with
  | none => true
  | some vm =>
    match srcMtime with
    | none => false
    | some sm => decide (vm < sm)

/-- The grace window of part_000 line 303 (`instStats.mtime + 5000`),
in milliseconds. -/
def TOLERANCE : Nat := 5000

/-- The four lifecycle states assigned by `scanForSuite`. -/
inductive Status
  | new
  | update
  | installed
  | stale
deriving Repr, DecidableEq

/-- The classification of part_000 lines 291-318.  With an installed
entity present: a strictly newer descriptor version wins; otherwise
staleness; otherwise, when the artifact exists, its mtime is compared
against the installed manifest's mtime plus the tolerance window, with a
failing manifest `stat` falling back to `installed`.  With no installed
entity, the artifact's existence decides between `new` and `stale`. -/
def classify (p : ScanProject) : Status :=
  match p.installed with
  | some inst =>
    if 0 < compareVersions p.version inst.version then .update
    else if isStale p.vsixMtime p.srcMtime then .stale
    else
      match p.vsixMtime with
      | some vm =>
        match inst.manifestMtime with
        | some im => if im + TOLERANCE < vm then .update else .installed
        | none => .installed
      | none => .installed
  | none =>
    match p.vsixMtime with
    | some _ => .new
    | none => .stale

/-! ## Build orchestration (`runCompileAll`, part_000 lines 400-477) -/

/-- A parsed `package.json`: the fields `runCompileAll` and the scan
read.  `publisher` and `compileScript` are `none` when the field is
absent; JavaScript truthiness additionally rejects the empty string. -/
structure Manifest where
  name : String
  version : String
  publisher : Option String
  compileScript : Option String
deriving Repr, DecidableEq

/-- JavaScript truthiness of an optional string field: present and
nonempty. -/
def truthy : Option String → Bool
  | none => false
  | some s => s ≠ ""

/-- One discovered `package.json` file: the directory containing it and
the result of `JSON.parse` (`none` when reading or parsing throws, in
which case the file is skipped). -/
structure PkgEntry where
  dir : String
  parsed : Option Manifest
deriving Repr, DecidableEq

/-- The discovery loop of part_000 lines 408-421: keep the directory and
manifest of every parseable `package.json` with a truthy `publisher` and
a truthy `scripts.compile`. -/
def collectProjects (entries : List PkgEntry) : List (String × Manifest) :=
  entries.filterMap fun e =>
    match e.parsed with
    | some m =>
      if truthy m.publisher && truthy m.compileScript then some (e.dir, m)
      else none
    | none => none

/-- Models `path.basename` restricted to the POSIX separator, as applied to the
slash-joined project paths the orchestrators produce. -/
def basename (p : String) : String :=
  ((((splitSep '/' p.toList).map String.mk).getLast?).getD p)

/-- Models `path.join` restricted to the POSIX separator. -/
def joinPath (a b : String) : String := a ++ "/" ++ b

/-- Models `toLowerCase`, at character level. -/
def jsToLower (s : String) : String :=
  String.mk (s.toList.map Char.toLower)

/-- The derived artifact file name of part_000 lines 262 and 440:
`` `${name}-${version}.vsix`.toLowerCase() ``. -/
def vsixFileName (name version : String) : String :=
  jsToLower (name ++ "-" ++ version ++ ".vsix")

/-- The skip check of part_000 lines 441-451: `needsBuild` starts `true`
and becomes `false` only when the artifact `stat` succeeds, the `src`
`stat` succeeds, and the `src` mtime is strictly below the artifact
mtime.  `fs` is the filesystem-stat collaborator as a snapshot from full
path to mtime (`none` when `stat` throws). -/
def needsBuild (fs : String → Option Nat) (dir : String) (m : Manifest) : Bool :=
  match fs (joinPath dir (vsixFileName m.name m.version)), fs (joinPath dir "src") with
  | some vm, some sm => !(decide (sm < vm))
  | _, _ => true

/-- Build/package collaborator outcomes, keyed by project path:
whether `Publisher.runCompile` resp. `Publisher.packageExtension`
resolves for that project. -/
structure Collab where
  compileOk : String → Bool
  packageOk : String → Bool

/-- The running state of the `runCompileAll` loop, extended with the
trace of collaborator invocations: `builtPaths` records each path passed
to `Publisher.runCompile` and `packagedPaths` each path passed to
`Publisher.packageExtension`, in invocation order. -/
structure BuildReport where
  successCount : Nat
  failedProjects : List String
  builtPaths : List String
  packagedPaths : List String
deriving Repr, DecidableEq

/-- The body of the `for` loop of part_000 lines 436-468: an up-to-date
project is counted as succeeded without invoking any collaborator;
otherwise `runCompile` is invoked, then (only when it resolves)
`packageExtension`; a rejection of either records the project's basename
in `failedProjects`. -/
def buildStep (fs : String → Option Nat) (c : Collab) (r : BuildReport)
    (p : String × Manifest) : BuildReport :=
  if needsBuild fs p.1 p.2 = false then
    { r with successCount := r.successCount + 1 }
  else
    let r1 := { r with builtPaths := r.builtPaths ++ [p.1] }
    if c.compileOk p.1 then
      let r2 := { r1 with packagedPaths := r1.packagedPaths ++ [p.1] }
      if c.packageOk p.1 then { r2 with successCount := r2.successCount + 1 }
      else { r2 with failedProjects := r2.failedProjects ++ [basename p.1] }
    else { r1 with failedProjects := r1.failedProjects ++ [basename p.1] }

/-- Embedding of `runCompileAll` over discovered entries: discovery filter followed by
the sequential build loop. -/
def runCompileAll (fs : String → Option Nat) (c : Collab)
    (entries : List PkgEntry) : BuildReport :=
  (collectProjects entries).foldl (buildStep fs c) ⟨0, [], [], []⟩

/-! ## Install orchestration (`installSuite`, part_000 lines 357-376) -/

/-- The running state of the `installSuite` loop: the count of resolved
installs, the basenames reported via `showErrorMessage` for rejected
installs, and the trace of paths passed to the
`workbench.extensions.installExtension` command, in invocation order. -/
structure InstallReport where
  installedCount : Nat
  errors : List String
  attempts : List String
deriving Repr, DecidableEq

/-- The body of the `for` loop of part_000 lines 364-372: every path is
passed to the install command; on resolution the count is incremented,
on rejection the artifact's basename is recorded and the loop goes on.
`ok` is the install collaborator outcome per path. -/
def installStep (ok : String → Bool) (r : InstallReport) (p : String) : InstallReport :=
  let r1 := { r with attempts := r.attempts ++ [p] }
  if ok p then { r1 with installedCount := r1.installedCount + 1 }
  else { r1 with errors := r1.errors ++ [basename p] }

/-- Embedding of `installSuite` over the given artifact paths. -/
def installSuite (ok : String → Bool) (vsixPaths : List String) : InstallReport :=
  vsixPaths.foldl (installStep ok) ⟨0, [], []⟩

/-- Overall per-project success of the build loop: counted in
`successCount` exactly when the project is skipped as up to date, or both
collaborator calls resolve. -/
def buildOk (fs : String → Option Nat) (c : Collab) (p : String × Manifest) : Bool :=
  !needsBuild fs p.1 p.2 || (c.compileOk p.1 && c.packageOk p.1)

/-! ## Concrete sample data, for evaluating the embedded code on
specific inputs -/

/-- A filesystem snapshot where the project at `/q` has its artifact and
its `src` subtree carrying the same modification time. -/
def eqTimeFs : String → Option Nat := fun s =>
  if s = "/q/x-1.0.0.vsix" then some 100
  else if s = "/q/src" then some 100
  else none

/-- A filesystem snapshot where the project at `/q` has an artifact but
its `src` subtree cannot be stat'ed. -/
def noSrcFs : String → Option Nat := fun s =>
  if s = "/q/x-1.0.0.vsix" then some 100 else none

/-- A filesystem snapshot where the artifact of the project at `/q` is
strictly newer than its `src` subtree. -/
def freshFs : String → Option Nat := fun s =>
  if s = "/q/x-1.0.0.vsix" then some 100
  else if s = "/q/src" then some 99
  else none

/-- A build/package collaborator where every invocation resolves. -/
def allOkCollab : Collab := ⟨fun _ => true, fun _ => true⟩

/-- A build/package collaborator where every compile invocation is
rejected. -/
def compileFailsCollab : Collab := ⟨fun _ => false, fun _ => true⟩

/-- A sample eligible manifest named `x` at version `1.0.0`. -/
def mX : Manifest := ⟨"x", "1.0.0", some "pub", some "compile"⟩

/-- Three discovered eligible projects: `/p1` and `/p2` carry fresh
artifacts under `sampleFs`, while `/p3` has no artifact. -/
def sampleEntries : List PkgEntry :=
  [⟨"/p1", some ⟨"a", "1.0.0", some "pub", some "compile"⟩⟩,
   ⟨"/p2", some ⟨"b", "1.0.0", some "pub", some "compile"⟩⟩,
   ⟨"/p3", some ⟨"x", "1.0.0", some "pub", some "compile"⟩⟩]

/-- A filesystem snapshot for `sampleEntries`: the artifacts of `/p1`
and `/p2` exist and are newer than their `src` subtrees, `/p3` has no
artifact. -/
def sampleFs : String → Option Nat := fun s =>
  if s = "/p1/a-1.0.0.vsix" then some 10
  else if s = "/p1/src" then some 5
  else if s = "/p2/b-1.0.0.vsix" then some 10
  else if s = "/p2/src" then some 5
  else none

end Launchpad

namespace Launchpad

/-! ## Helper lemmas -/

theorem length_filter_add_length_filter_not {α : Type} (l : List α) (p : α → Bool) :
    (l.filter p).length + (l.filter (fun a => !p a)).length = l.length := by
  induction l with
  | nil => simp
  | cons a l ih =>
    cases h : p a <;> simp [List.filter_cons, h, ← ih] <;> omega

theorem filter_and_eq_filter_filter {α : Type} (l : List α) (p q : α → Bool) :
    l.filter (fun a => p a && q a) = (l.filter p).filter q := by
  induction l with
  | nil => simp
  | cons a l ih =>
    cases hp : p a <;> cases hq : q a <;>
      simp [List.filter_cons, hp, hq, ih]

theorem length_filter_or_split {α : Type} (l : List α) (p q : α → Bool) :
    (l.filter (fun a => !p a || q a)).length =
      (l.filter (fun a => !p a)).length + (l.filter (fun a => p a && q a)).length := by
  induction l with
  | nil => simp
  | cons a l ih =>
    cases hp : p a <;> cases hq : q a <;>
      simp [List.filter_cons, hp, hq, ih] <;> omega

/-- Characterization of the `installSuite` loop: starting from any
accumulated report, the loop appends every path (in order) to the
attempt trace, counts the resolved installs, and records the basenames
of the rejected ones in order. -/
theorem installFold_spec (ok : String → Bool) :
    ∀ (ps : List String) (r : InstallReport),
    ps.foldl (installStep ok) r =
      ⟨r.installedCount + (ps.filter ok).length,
       r.errors ++ (ps.filter (fun p => !ok p)).map basename,
       r.attempts ++ ps⟩ := by
  intro ps
  induction ps with
  | nil => intro r; simp
  | cons p ps ih =>
    intro r
    rw [List.foldl_cons, ih]
    cases h : ok p <;>
      (simp [installStep, h, List.filter_cons, InstallReport.mk.injEq]; try omega)

/-- Characterization of the `runCompileAll` loop: starting from any
accumulated report, the loop adds one success per `buildOk` project,
records the basename of every project whose build or packaging fails,
invokes the build collaborator exactly on the projects that need a
build, and the package collaborator exactly on those whose compile
resolves. -/
theorem buildFold_spec (fs : String → Option Nat) (c : Collab) :
    ∀ (ps : List (String × Manifest)) (r : BuildReport),
    ps.foldl (buildStep fs c) r =
      ⟨r.successCount + (ps.filter (buildOk fs c)).length,
       r.failedProjects ++
         (ps.filter (fun p => !buildOk fs c p)).map (fun p => basename p.1),
       r.builtPaths ++ (ps.filter (fun p => needsBuild fs p.1 p.2)).map Prod.fst,
       r.packagedPaths ++
         (ps.filter (fun p => needsBuild fs p.1 p.2 && c.compileOk p.1)).map Prod.fst⟩ := by
  intro ps
  induction ps with
  | nil => intro r; simp
  | cons p ps ih =>
    intro r
    rw [List.foldl_cons, ih]
    cases hnb : needsBuild fs p.1 p.2 <;>
      cases hco : c.compileOk p.1 <;>
      cases hpo : c.packageOk p.1 <;>
      simp [buildStep, buildOk, hnb, hco, hpo, List.filter_cons,
        BuildReport.mk.injEq] <;>
      omega

/-- The comparison loop is antisymmetric on any index list. -/
theorem cmpList_neg (p1 p2 : List (Option Int)) :
    ∀ l : List Nat, cmpList p1 p2 l = -cmpList p2 p1 l := by
  intro l
  induction l with
  | nil => simp [cmpList]
  | cons i rest ih =>
    by_cases h1 : componentAt p2 i < componentAt p1 i
    · simp [cmpList, h1, lt_asymm h1]
    · by_cases h2 : componentAt p1 i < componentAt p2 i
      · simp [cmpList, h1, h2]
      · simp [cmpList, h1, h2, ih]

/-- The comparison loop returns `0` on identical part lists. -/
theorem cmpList_self (p : List (Option Int)) :
    ∀ l : List Nat, cmpList p p l = 0 := by
  intro l
  induction l with
  | nil => simp [cmpList]
  | cons i rest ih => simp [cmpList, ih]

/-- The comparison loop only looks at the coerced components at the
visited indices. -/
theorem cmpList_congr (p1 p2 q1 q2 : List (Option Int)) :
    ∀ l : List Nat, (∀ i ∈ l, componentAt p1 i = componentAt q1 i) →
      (∀ i ∈ l, componentAt p2 i = componentAt q2 i) →
      cmpList p1 p2 l = cmpList q1 q2 l := by
  intro l
  induction l with
  | nil => intro _ _; simp [cmpList]
  | cons i rest ih =>
    intro h1 h2
    simp only [cmpList]
    rw [h1 i (by simp), h2 i (by simp)]
    split
    · rfl
    · split
      · rfl
      · exact ih (fun j hj => h1 j (by simp [hj])) (fun j hj => h2 j (by simp [hj]))

/-- Antisymmetry of the embedded comparator, for all inputs. -/
theorem compareVersions_neg_all (v1 v2 : String) :
    compareVersions v1 v2 = -compareVersions v2 v1 := by
  unfold compareVersions
  have hswap : (decide (v2 = "") || decide (v1 = "") || decide (v2 = "unknown") ||
        decide (v1 = "unknown")) =
      (decide (v1 = "") || decide (v2 = "") || decide (v1 = "unknown") ||
        decide (v2 = "unknown")) := by
    cases decide (v1 = "") <;> cases decide (v2 = "") <;>
      cases decide (v1 = "unknown") <;> cases decide (v2 = "unknown") <;> rfl
  rw [hswap]
  cases hg : (decide (v1 = "") || decide (v2 = "") || decide (v1 = "unknown") ||
      decide (v2 = "unknown"))
  · rw [if_neg (by decide), if_neg (by decide)]
    exact cmpList_neg _ _ _
  · simp

/-- Reflexivity of the embedded comparator, for all inputs. -/
theorem compareVersions_self_all (v : String) : compareVersions v v = 0 := by
  unfold compareVersions
  cases hg : (decide (v = "") || decide (v = "") || decide (v = "unknown") ||
      decide (v = "unknown")) <;>
    simp [cmpList_self]

/-- Defaulted lookup in a list mapped by a partial function. -/
theorem getD_map_none {α β : Type} (l : List α) (f : α → Option β) :
    ∀ i : Nat, (l.map f).getD i none = (l.get? i).bind f := by
  induction l with
  | nil => intro i; simp
  | cons a l ih =>
    intro i
    cases i with
    | zero => simp
    | succ n => simpa using ih n

/-- The coerced component of a version is the component string looked up
in the split list, sent through `Number` and defaulted to `0`. -/
theorem componentAt_versionParts (v : String) (i : Nat) :
    componentAt (versionParts v) i = (((jsSplitDots v).get? i).bind jsNum).getD 0 := by
  unfold componentAt versionParts
  rw [getD_map_none]

/-! ## Claim theorems -/

/-- C1: for every project with an installed entity present, a strictly
positive version comparison against the installed version classifies the
project as `update`, regardless of the artifact's existence or
staleness and regardless of any timestamp comparison. -/
theorem classify_versionBump_update (p : ScanProject) (inst : InstalledInfo)
    (hinst : p.installed = some inst)
    (hcmp : 0 < compareVersions p.version inst.version) :
    classify p = .update := by
  unfold classify
  rw [hinst]
  simp [hcmp]

/-- Witness for C1: descriptor version `1.2.0` over installed `1.1.0`,
with a stale artifact (source newer than artifact) and an ancient
installed manifest, still classifies as `update`. -/
theorem classify_versionBump_update_witness :
    classify ⟨"1.2.0", some 100, some 200, some ⟨"1.1.0", some 0⟩⟩ = .update :=
  classify_versionBump_update ⟨"1.2.0", some 100, some 200, some ⟨"1.1.0", some 0⟩⟩
    ⟨"1.1.0", some 0⟩ rfl (by decide)

/-- C3: an absent artifact is stale for any source state; an existing
artifact is stale exactly when the source subtree's mtime is strictly
greater (so equality is not stale); an unreadable source subtree is not
stale when the artifact exists. -/
theorem staleness_rule (vsixM srcM : Option Nat) :
    (vsixM = none → isStale vsixM srcM = true) ∧
    (∀ vm, vsixM = some vm →
      (isStale vsixM srcM = true ↔ ∃ sm, srcM = some sm ∧ vm < sm)) ∧
    (srcM = none → vsixM ≠ none → isStale vsixM srcM = false) := by
  refine ⟨?_, ?_, ?_⟩
  · intro h; rw [h]; rfl
  · intro vm h; subst h
    cases srcM with
    | none => simp [isStale]
    | some sm => simp [isStale]
  · intro h hne
    cases hv : vsixM with
    | none => exact absurd hv hne
    | some vm => rw [h]; rfl

/-- Witness for C3: an absent artifact is stale under a present source;
an artifact at mtime `5` is stale against a source at mtime `6`; and an
artifact is not stale when the source cannot be stat'ed. -/
theorem staleness_rule_witness :
    isStale none (some 7) = true ∧
    (isStale (some 5) (some 6) = true ↔ ∃ sm, (some 6 : Option Nat) = some sm ∧ 5 < sm) ∧
    isStale (some 5) none = false :=
  ⟨(staleness_rule none (some 7)).1 rfl,
   (staleness_rule (some 5) (some 6)).2.1 5 rfl,
   (staleness_rule (some 5) none).2.2 rfl (by decide)⟩

/-- C8: for every project with no installed entity, an existing artifact
classifies as `new` and a missing artifact as `stale`, whatever the
source tree's timestamps. -/
theorem classify_neverInstalled (p : ScanProject) (hni : p.installed = none) :
    ((∃ vm, p.vsixMtime = some vm) → classify p = .new) ∧
    (p.vsixMtime = none → classify p = .stale) := by
  unfold classify
  rw [hni]
  constructor
  · rintro ⟨vm, h⟩; rw [h]
  · intro h; rw [h]

/-- Witness for C8: with no installed entity, an existing artifact under
a much newer source still gives `new`, and a missing artifact under the
same source gives `stale`. -/
theorem classify_neverInstalled_witness :
    classify ⟨"1.2.0", some 3, some 999, none⟩ = .new ∧
    classify ⟨"1.2.0", none, some 999, none⟩ = .stale :=
  ⟨(classify_neverInstalled ⟨"1.2.0", some 3, some 999, none⟩ rfl).1 ⟨3, rfl⟩,
   (classify_neverInstalled ⟨"1.2.0", none, some 999, none⟩ rfl).2 rfl⟩

/-- C4: with an installed entity present, a non-positive version
comparison, a non-stale and existing artifact, the project classifies as
`update` exactly when the artifact's mtime exceeds the installed
manifest's mtime plus the grace window, and as `installed` otherwise; an
unreadable installed-manifest timestamp gives `installed`, and the
outcome is always one of the two (classification is a total function,
mirroring the `try/catch` that keeps exceptions from escaping). -/
theorem classify_graceWindow (p : ScanProject) (inst : InstalledInfo) (vm : Nat)
    (hinst : p.installed = some inst)
    (hcmp : ¬ 0 < compareVersions p.version inst.version)
    (hstale : isStale p.vsixMtime p.srcMtime = false)
    (hvsix : p.vsixMtime = some vm) :
    (classify p = .update ↔
      ∃ im, inst.manifestMtime = some im ∧ im + TOLERANCE < vm) ∧
    (inst.manifestMtime = none → classify p = .installed) ∧
    (classify p = .update ∨ classify p = .installed) := by
  have hstale' : isStale (some vm) p.srcMtime = false := by
    rw [← hvsix]; exact hstale
  unfold classify
  simp only [hinst, hvsix]
  rw [if_neg hcmp, hstale', if_neg (by decide)]
  cases hm : inst.manifestMtime with
  | none => simp
  | some im =>
    by_cases him : im + TOLERANCE < vm
    · simp [him]
    · simp [him]

/-- Witness for C4: installed at the same version with a fresh existing
artifact, the classifier returns `update` when the artifact is more than
the grace window past the installed manifest (`6000 > 500 + 5000`), and
`installed` when the manifest timestamp cannot be read. -/
theorem classify_graceWindow_witness :
    (classify ⟨"1.2.0", some 6000, some 50, some ⟨"1.2.0", some 500⟩⟩ = .update ↔
      ∃ im, (some 500 : Option Nat) = some im ∧ im + TOLERANCE < 6000) ∧
    classify ⟨"1.2.0", some 6000, some 50, some ⟨"1.2.0", none⟩⟩ = .installed :=
  ⟨(classify_graceWindow ⟨"1.2.0", some 6000, some 50, some ⟨"1.2.0", some 500⟩⟩
      ⟨"1.2.0", some 500⟩ 6000 rfl (by decide) (by decide) rfl).1,
   (classify_graceWindow ⟨"1.2.0", some 6000, some 50, some ⟨"1.2.0", none⟩⟩
      ⟨"1.2.0", none⟩ 6000 rfl (by decide) (by decide) rfl).2.1 rfl⟩

/-- C5: the version comparator returns `0` whenever either input is
empty or `"unknown"`; otherwise the result depends only on the first
three coerced components; a component index beyond the split list
coerces to `0` (so `compare("1.0", "1.0.0") = 0`); and a component whose
`Number` conversion is `NaN` coerces to `0` on that component (the
comparator being a total function, no error is raised). -/
theorem comparator_coercion_rule :
    (∀ v1 v2 : String,
      v1 = "" ∨ v2 = "" ∨ v1 = "unknown" ∨ v2 = "unknown" →
      compareVersions v1 v2 = 0) ∧
    (∀ v1 v2 w1 w2 : String,
      ¬(v1 = "" ∨ v2 = "" ∨ v1 = "unknown" ∨ v2 = "unknown") →
      ¬(w1 = "" ∨ w2 = "" ∨ w1 = "unknown" ∨ w2 = "unknown") →
      (∀ i < 3, componentAt (versionParts v1) i = componentAt (versionParts w1) i) →
      (∀ i < 3, componentAt (versionParts v2) i = componentAt (versionParts w2) i) →
      compareVersions v1 v2 = compareVersions w1 w2) ∧
    (∀ v : String, ∀ i, (jsSplitDots v).length ≤ i →
      componentAt (versionParts v) i = 0) ∧
    (∀ v : String, ∀ i s, (jsSplitDots v).get? i = some s → jsNum s = none →
      componentAt (versionParts v) i = 0) ∧
    compareVersions "1.0" "1.0.0" = 0 := by
  refine ⟨?_, ?_, ?_, ?_, by decide⟩
  · intro v1 v2 hg
    unfold compareVersions
    rw [if_pos (by simp only [Bool.or_eq_true, decide_eq_true_eq]; tauto)]
  · intro v1 v2 w1 w2 hg hw h1 h2
    unfold compareVersions
    rw [if_neg (by simp only [Bool.or_eq_true, decide_eq_true_eq]; tauto),
      if_neg (by simp only [Bool.or_eq_true, decide_eq_true_eq]; tauto)]
    refine cmpList_congr _ _ _ _ [0, 1, 2]
      (fun i hi => h1 i ?_) (fun i hi => h2 i ?_) <;>
      (simp at hi; omega)
  · intro v i hlen
    rw [componentAt_versionParts, List.get?_eq_none.mpr hlen]
    rfl
  · intro v i s hs hnum
    rw [componentAt_versionParts, hs]
    simp [hnum]

/-- Witness for C5: an empty left input compares equal; trailing fourth
components do not affect the comparison; the missing third component of
`"1.0"` coerces to `0`; and the malformed component `"x"` of `"1.x.2"`
coerces to `0`. -/
theorem comparator_coercion_rule_witness :
    compareVersions "" "1.0.0" = 0 ∧
    compareVersions "1.2.3.9" "1.2.3" = compareVersions "1.2.3.1" "1.2.3" ∧
    componentAt (versionParts "1.0") 2 = 0 ∧
    componentAt (versionParts "1.x.2") 1 = 0 :=
  ⟨comparator_coercion_rule.1 "" "1.0.0" (Or.inl rfl),
   comparator_coercion_rule.2.1 "1.2.3.9" "1.2.3" "1.2.3.1" "1.2.3"
     (by decide) (by decide) (by decide) (by decide),
   comparator_coercion_rule.2.2.1 "1.0" 2 (by decide),
   comparator_coercion_rule.2.2.2.1 "1.x.2" 1 "x" (by decide) (by decide)⟩

/-- C9: the comparator is antisymmetric on well-formed three-component
versions, and reflexive (`compare(a,a) = 0`) on every version string. -/
theorem comparator_algebra_rule :
    (∀ a b : String, WellFormed a → WellFormed b →
      compareVersions a b = -compareVersions b a) ∧
    (∀ a : String, compareVersions a a = 0) :=
  ⟨fun a b _ _ => compareVersions_neg_all a b, compareVersions_self_all⟩

/-- Witness for C9: antisymmetry at the well-formed pair
`("1.2.3", "4.5.6")`. -/
theorem comparator_algebra_rule_witness :
    compareVersions "1.2.3" "4.5.6" = -compareVersions "4.5.6" "1.2.3" :=
  comparator_algebra_rule.1 "1.2.3" "4.5.6" (by decide) (by decide)

/-- C7: for every input list of artifact paths, the install loop
attempts exactly the input list in its given order (no reordering, no
deduplication, every artifact attempted regardless of earlier
failures), records the identity of each rejected artifact, and reports
as installed exactly the number of resolved installs. -/
theorem install_sequential_rule (ok : String → Bool) (vsixPaths : List String) :
    installSuite ok vsixPaths =
      ⟨(vsixPaths.filter ok).length,
       (vsixPaths.filter (fun p => !ok p)).map basename,
       vsixPaths⟩ := by
  unfold installSuite
  rw [installFold_spec]
  simp

/-- C10: in every suite build run, the success count plus the number of
failed projects equals the number of eligible projects (those whose
manifest has a truthy publisher and compile script): each eligible
project is accounted for exactly once. -/
theorem accounting_invariant_rule (fs : String → Option Nat) (c : Collab)
    (entries : List PkgEntry) :
    (runCompileAll fs c entries).successCount +
      (runCompileAll fs c entries).failedProjects.length =
      (collectProjects entries).length := by
  unfold runCompileAll
  rw [buildFold_spec]
  simp only [List.length_map, Nat.zero_add, List.nil_append]
  exact length_filter_add_length_filter_not _ _

/-- C2 counterexample: the orchestrator does not decide `needsBuild` by
the staleness oracle.  Under `eqTimeFs` the artifact of `/q` exists and
is not stale (its timestamp equals the source subtree's), and under
`noSrcFs` it exists and is not stale (the source subtree cannot be
inspected); the claim predicts a skip with no build invocation in both
situations, yet the build collaborator is invoked on `/q` in both. -/
theorem buildSkip_oracle_counterexample :
    (eqTimeFs "/q/x-1.0.0.vsix" = some 100 ∧
      isStale (eqTimeFs "/q/x-1.0.0.vsix") (eqTimeFs "/q/src") = false ∧
      (runCompileAll eqTimeFs allOkCollab [⟨"/q", some mX⟩]).builtPaths = ["/q"]) ∧
    (noSrcFs "/q/x-1.0.0.vsix" = some 100 ∧
      isStale (noSrcFs "/q/x-1.0.0.vsix") (noSrcFs "/q/src") = false ∧
      (runCompileAll noSrcFs allOkCollab [⟨"/q", some mX⟩]).builtPaths = ["/q"]) := by
  decide

/-- C2 (amended): the build orchestrator skips a project (counting it as
succeeded, with no build or package collaborator invocation) exactly
when its artifact exists, its source subtree can be stat'ed, and the
source timestamp is strictly below the artifact timestamp; when the
timestamps are equal, or the source subtree cannot be inspected, or the
artifact is absent, the build collaborator is invoked. -/
theorem buildSkip_strict_rule (fs : String → Option Nat) (c : Collab)
    (dir : String) (m : Manifest) :
    (needsBuild fs dir m = false ↔
      ∃ vm sm, fs (joinPath dir (vsixFileName m.name m.version)) = some vm ∧
        fs (joinPath dir "src") = some sm ∧ sm < vm) ∧
    (needsBuild fs dir m = false → ∀ r : BuildReport,
      buildStep fs c r (dir, m) = { r with successCount := r.successCount + 1 }) ∧
    (needsBuild fs dir m = true → ∀ r : BuildReport,
      (buildStep fs c r (dir, m)).builtPaths = r.builtPaths ++ [dir]) := by
  refine ⟨?_, ?_, ?_⟩
  · unfold needsBuild
    cases hv : fs (joinPath dir (vsixFileName m.name m.version)) with
    | none => simp
    | some vm =>
      cases hs : fs (joinPath dir "src") with
      | none => simp
      | some sm => by_cases h : sm < vm <;> simp [h]
  · intro h r
    unfold buildStep
    rw [if_pos h]
  · intro h r
    unfold buildStep
    rw [if_neg (by simp [h])]
    cases hc : c.compileOk dir <;> cases hp : c.packageOk dir <;> simp [hc, hp]

/-- Witness for the amended C2: with the artifact strictly newer than
the source the project is skipped with only its success counted; with
equal timestamps the build collaborator is invoked. -/
theorem buildSkip_strict_rule_witness :
    needsBuild freshFs "/q" mX = false ∧
    buildStep freshFs allOkCollab ⟨0, [], [], []⟩ ("/q", mX) = ⟨1, [], [], []⟩ ∧
    (buildStep eqTimeFs allOkCollab ⟨0, [], [], []⟩ ("/q", mX)).builtPaths = ["/q"] :=
  ⟨(buildSkip_strict_rule freshFs allOkCollab "/q" mX).1.mpr
      ⟨100, 99, by decide, by decide, by decide⟩,
   (buildSkip_strict_rule freshFs allOkCollab "/q" mX).2.1 (by decide) ⟨0, [], [], []⟩,
   (buildSkip_strict_rule eqTimeFs allOkCollab "/q" mX).2.2 (by decide) ⟨0, [], [], []⟩⟩

/-- C6: the orchestrator invokes the build collaborator on every project
that needs a build, regardless of other projects' outcomes; and in a
run over three eligible projects of which exactly one needs a build,
exactly one build invocation occurs, a resolving build yields success
count `3` with no failures, and a rejected build yields success count
`2` with exactly that project's name failed — the other two projects'
results unaffected. -/
theorem failure_isolation_rule (fs : String → Option Nat) (c : Collab)
    (entries : List PkgEntry) (q : String × Manifest)
    (hlen : (collectProjects entries).length = 3)
    (hone : (collectProjects entries).filter
      (fun p => needsBuild fs p.1 p.2) = [q]) :
    (∀ es : List PkgEntry,
      (runCompileAll fs c es).builtPaths =
        ((collectProjects es).filter (fun p => needsBuild fs p.1 p.2)).map Prod.fst) ∧
    (runCompileAll fs c entries).builtPaths = [q.1] ∧
    ((c.compileOk q.1 && c.packageOk q.1) = true →
      (runCompileAll fs c entries).successCount = 3 ∧
      (runCompileAll fs c entries).failedProjects = []) ∧
    ((c.compileOk q.1 && c.packageOk q.1) = false →
      (runCompileAll fs c entries).successCount = 2 ∧
      (runCompileAll fs c entries).failedProjects = [basename q.1]) := by
  have hgen : ∀ es : List PkgEntry,
      (runCompileAll fs c es).builtPaths =
        ((collectProjects es).filter (fun p => needsBuild fs p.1 p.2)).map Prod.fst := by
    intro es
    unfold runCompileAll
    rw [buildFold_spec]
    simp
  have hok_eq : (collectProjects entries).filter (buildOk fs c) =
      (collectProjects entries).filter
        (fun p => !needsBuild fs p.1 p.2 || (c.compileOk p.1 && c.packageOk p.1)) := rfl
  have hsplit := length_filter_or_split (collectProjects entries)
    (fun p => needsBuild fs p.1 p.2) (fun p => c.compileOk p.1 && c.packageOk p.1)
  have hand : (collectProjects entries).filter
      (fun p => needsBuild fs p.1 p.2 && (c.compileOk p.1 && c.packageOk p.1)) =
      [q].filter (fun p => c.compileOk p.1 && c.packageOk p.1) := by
    rw [filter_and_eq_filter_filter, hone]
  have hnb1 : ((collectProjects entries).filter
      (fun p => needsBuild fs p.1 p.2)).length = 1 := by
    rw [hone]; rfl
  have hnotnb : ((collectProjects entries).filter
      (fun p => !needsBuild fs p.1 p.2)).length = 2 := by
    have := length_filter_add_length_filter_not (collectProjects entries)
      (fun p => needsBuild fs p.1 p.2)
    omega
  have hfail : (collectProjects entries).filter (fun p => !buildOk fs c p) =
      [q].filter (fun p => !(c.compileOk p.1 && c.packageOk p.1)) := by
    have hcong : (collectProjects entries).filter (fun p => !buildOk fs c p) =
        (collectProjects entries).filter
          (fun p => needsBuild fs p.1 p.2 && !(c.compileOk p.1 && c.packageOk p.1)) := by
      apply List.filter_congr
      intro a _
      simp [buildOk]
    rw [hcong, filter_and_eq_filter_filter, hone]
  have hsc : (runCompileAll fs c entries).successCount =
      ((collectProjects entries).filter (buildOk fs c)).length := by
    unfold runCompileAll
    rw [buildFold_spec]
    simp
  have hfp : (runCompileAll fs c entries).failedProjects =
      ((collectProjects entries).filter (fun p => !buildOk fs c p)).map
        (fun p => basename p.1) := by
    unfold runCompileAll
    rw [buildFold_spec]
    simp
  refine ⟨hgen, ?_, ?_, ?_⟩
  · rw [hgen entries, hone]; rfl
  · intro hcol
    refine ⟨?_, ?_⟩
    · rw [hsc, hok_eq, hsplit, hnotnb, hand]
      simp only [List.filter_singleton, hcol]
      simp
    · rw [hfp, hfail]
      simp only [List.filter_singleton, hcol]
      simp
  · intro hcol
    refine ⟨?_, ?_⟩
    · rw [hsc, hok_eq, hsplit, hnotnb, hand]
      simp only [List.filter_singleton, hcol]
      simp
    · rw [hfp, hfail]
      simp only [List.filter_singleton, hcol]
      simp

/-- Witness for C6: over `sampleEntries` with `sampleFs`, the projects
at `/p1` and `/p2` are up to date and `/p3` needs a build; with a
rejecting compile collaborator the run invokes exactly one build, counts
`2` successes and fails exactly `p3`. -/
theorem failure_isolation_rule_witness :
    (runCompileAll sampleFs compileFailsCollab sampleEntries).builtPaths = ["/p3"] ∧
    (runCompileAll sampleFs compileFailsCollab sampleEntries).successCount = 2 ∧
    (runCompileAll sampleFs compileFailsCollab sampleEntries).failedProjects = ["p3"] := by
  have h := failure_isolation_rule sampleFs compileFailsCollab sampleEntries
    ("/p3", ⟨"x", "1.0.0", some "pub", some "compile"⟩) (by decide) (by decide)
  have h2 := h.2.2.2 (by decide)
  exact ⟨h.2.1, h2.1, h2.2.trans (by decide)⟩

end Launchpad
